import Mathlib

/-!
Verification of the data-preparation and metrics pipeline of the
electricity-analytics dashboard (src/data_loader.py, src/metrics_calculator.py,
src/chart_utils.py), shallowly embedded in Lean 4.

Modelling conventions:
* Calendar dates are records of year/month/day; `Date.toOrdinal` is the
  proleptic-Gregorian day number exactly as Python's `datetime.date.toordinal`
  (0001-01-01 ↦ 1).  Python compares dates by calendar order, which for valid
  dates coincides with ordinal order, so all comparisons in the embedding go
  through `toOrdinal`.
* Timestamps are a date plus an hour of day (the data is hourly); the pandas
  `DatetimeIndex` order is the lexicographic order on (date, hour), i.e. the
  order of `Timestamp.key`.
* Floating-point columns are embedded as exact rationals `ℚ`.
* A pandas `DataFrame` with a datetime index is a `List Row` (the Dataset
  invariant: sorted by timestamp, unique timestamps; theorems that need
  sortedness or in-range hours state those hypotheses explicitly).
-/

/-- A calendar date (year/month/day), as Python's `datetime.date`. -/
structure Date where
  year : Nat
  month : Nat
  day : Nat
deriving DecidableEq, Repr

/-- Gregorian leap-year test. -/
def isLeap (y : Nat) : Bool :=
  (y % 4 == 0 && y % 100 != 0) || y % 400 == 0

/-- Number of days in month `m` of year `y`. -/
def daysInMonth (y m : Nat) : Nat :=
  if m == 2 then (if isLeap y then 29 else 28)
  else if m == 4 || m == 6 || m == 9 || m == 11 then 30
  else 31

/-- Days strictly before month `m` in a common (non-leap) year. -/
def daysBeforeMonthCommon : Nat → Nat
  | 1 => 0
  | 2 => 31
  | 3 => 59
  | 4 => 90
  | 5 => 120
  | 6 => 151
  | 7 => 181
  | 8 => 212
  | 9 => 243
  | 10 => 273
  | 11 => 304
  | 12 => 334
  | _ => 365

/-- Days strictly before month `m` in year `y`. -/
def daysBeforeMonth (y m : Nat) : Nat :=
  daysBeforeMonthCommon m + (if 2 < m && isLeap y then 1 else 0)

/-- Proleptic-Gregorian day number, identical to Python's
`datetime.date.toordinal` (so `⟨1, 1, 1⟩.toOrdinal = 1`).  Python's calendar
order on valid dates coincides with the order of these ordinals. -/
def Date.toOrdinal (d : Date) : Nat :=
  365 * (d.year - 1) + (d.year - 1) / 4 + (d.year - 1) / 400 - (d.year - 1) / 100
    + daysBeforeMonth d.year d.month + d.day

/-- An hourly timestamp: a calendar date plus the hour of day. -/
structure Timestamp where
  date : Date
  hour : Nat
deriving DecidableEq, Repr

/-- Linearisation of the timestamp order used by the pandas `DatetimeIndex`:
for hours `< 24` the order of `key` is the chronological order. -/
def Timestamp.key (t : Timestamp) : Nat :=
  t.date.toOrdinal * 24 + t.hour

/-- One row of the joined dataframe built by `load_data`: the hourly
timestamp index plus the columns `Consumption (kWh)`, `Price (cents/kWh)`,
`Temperature (°C)` and the derived `Bill (€)`. -/
structure Row where
  ts : Timestamp
  kwh : ℚ
  price : ℚ
  temp : ℚ
  bill : ℚ
deriving DecidableEq, Repr

/-- Embedding of `filter_data_by_date_range` (src/data_loader.py).  The source slices
`df.loc[start.strftime('%Y-%m-%d'):end.strftime('%Y-%m-%d')]`; on the
date-sorted `DatetimeIndex` this pandas partial-string slice keeps exactly the
rows whose timestamp lies between `start_date 00:00:00` and
`end_date 23:59:59.999…`, i.e. whose calendar date is in
`[start_date, end_date]` inclusive. -/
def filter_data_by_date_range (df : List Row) (start_date end_date : Date) :
    List Row :=
  df.filter fun r =>
    decide (start_date.toOrdinal ≤ r.ts.date.toOrdinal ∧
      r.ts.date.toOrdinal ≤ end_date.toOrdinal)

/-- C1: for every dataset and every window with `start ≤ end`, every row kept
by the Date-Range Filter has its calendar date inside `[start, end]`
inclusive, and the output is empty iff no source row's date falls in that
span. -/
theorem dateRangeFilter_exact (df : List Row) (s e : Date)
    (hse : s.toOrdinal ≤ e.toOrdinal) :
    (∀ r ∈ filter_data_by_date_range df s e,
        s.toOrdinal ≤ r.ts.date.toOrdinal ∧ r.ts.date.toOrdinal ≤ e.toOrdinal) ∧
    (filter_data_by_date_range df s e = [] ↔
      ∀ r ∈ df, ¬ (s.toOrdinal ≤ r.ts.date.toOrdinal ∧
        r.ts.date.toOrdinal ≤ e.toOrdinal)) := by
  constructor
  · intro r hr
    have := List.of_mem_filter hr
    exact of_decide_eq_true this
  · rw [filter_data_by_date_range, List.filter_eq_nil_iff]
    constructor
    · intro h r hr
      have := h r hr
      simpa using this
    · intro h r hr
      simpa using h r hr

/-- Witness for C1 at a concrete dataset and window. -/
theorem dateRangeFilter_exact_witness :
    (Date.toOrdinal ⟨2025, 2, 1⟩ ≤ Date.toOrdinal ⟨2025, 2, 28⟩) ∧
    (∀ r ∈ filter_data_by_date_range
        [⟨⟨⟨2025, 1, 31⟩, 23⟩, 1, 2, 3, (2 : ℚ)/100⟩,
         ⟨⟨⟨2025, 2, 1⟩, 0⟩, 1, 2, 3, (2 : ℚ)/100⟩,
         ⟨⟨⟨2025, 3, 1⟩, 0⟩, 1, 2, 3, (2 : ℚ)/100⟩]
        ⟨2025, 2, 1⟩ ⟨2025, 2, 28⟩,
        Date.toOrdinal ⟨2025, 2, 1⟩ ≤ r.ts.date.toOrdinal ∧
          r.ts.date.toOrdinal ≤ Date.toOrdinal ⟨2025, 2, 28⟩) := by
  refine ⟨by decide, (dateRangeFilter_exact _ _ _ (by decide)).1⟩

/-- Python's `min` on two timestamps (ties keep the first argument), the
binary step of `df.index.min()`. -/
def tsMin (a b : Timestamp) : Timestamp := if b.key < a.key then b else a

/-- Python's `max` on two timestamps (ties keep the first argument), the
binary step of `df.index.max()`. -/
def tsMax (a b : Timestamp) : Timestamp := if a.key < b.key then b else a

/-- Embedding of `df.index.min()`: the minimal timestamp of the index, `none` on an empty
dataframe (where pandas yields `NaT`). -/
def datasetMinTs : List Row → Option Timestamp
  | [] => none
  | r :: rs => some ((rs.map Row.ts).foldl tsMin r.ts)

/-- Embedding of `df.index.max()`: the maximal timestamp of the index, `none` on an empty
dataframe (where pandas yields `NaT`). -/
def datasetMaxTs : List Row → Option Timestamp
  | [] => none
  | r :: rs => some ((rs.map Row.ts).foldl tsMax r.ts)

lemma tsMin_key_le_left (a b : Timestamp) : (tsMin a b).key ≤ a.key := by
  unfold tsMin; split <;> omega

lemma tsMin_key_le_right (a b : Timestamp) : (tsMin a b).key ≤ b.key := by
  unfold tsMin; split <;> omega

lemma tsMax_key_ge_left (a b : Timestamp) : a.key ≤ (tsMax a b).key := by
  unfold tsMax; split <;> omega

lemma tsMax_key_ge_right (a b : Timestamp) : b.key ≤ (tsMax a b).key := by
  unfold tsMax; split <;> omega

lemma foldl_tsMin_key_le_acc (l : List Timestamp) (a : Timestamp) :
    (l.foldl tsMin a).key ≤ a.key := by
  induction l generalizing a with
  | nil => simp
  | cons t ts ih =>
      calc (List.foldl tsMin (tsMin a t) ts).key ≤ (tsMin a t).key := ih _
        _ ≤ a.key := tsMin_key_le_left _ _

lemma foldl_tsMin_key_le_mem (l : List Timestamp) (a : Timestamp) :
    ∀ t ∈ l, (l.foldl tsMin a).key ≤ t.key := by
  induction l generalizing a with
  | nil => simp
  | cons u us ih =>
      intro t ht
      rcases List.mem_cons.1 ht with rfl | ht
      · calc (List.foldl tsMin (tsMin a t) us).key
            ≤ (tsMin a t).key := foldl_tsMin_key_le_acc _ _
          _ ≤ t.key := tsMin_key_le_right _ _
      · exact ih _ t ht

lemma foldl_tsMax_key_ge_acc (l : List Timestamp) (a : Timestamp) :
    a.key ≤ (l.foldl tsMax a).key := by
  induction l generalizing a with
  | nil => simp
  | cons t ts ih =>
      calc a.key ≤ (tsMax a t).key := tsMax_key_ge_left _ _
        _ ≤ (List.foldl tsMax (tsMax a t) ts).key := ih _

lemma foldl_tsMax_key_ge_mem (l : List Timestamp) (a : Timestamp) :
    ∀ t ∈ l, t.key ≤ (l.foldl tsMax a).key := by
  induction l generalizing a with
  | nil => simp
  | cons u us ih =>
      intro t ht
      rcases List.mem_cons.1 ht with rfl | ht
      · calc t.key ≤ (tsMax a t).key := tsMax_key_ge_right _ _
          _ ≤ (List.foldl tsMax (tsMax a t) us).key := foldl_tsMax_key_ge_acc _ _
      · exact ih _ t ht

lemma foldl_tsMin_mem (l : List Timestamp) (a : Timestamp) :
    l.foldl tsMin a = a ∨ l.foldl tsMin a ∈ l := by
  induction l generalizing a with
  | nil => simp
  | cons t ts ih =>
      rcases ih (tsMin a t) with h | h
      · rw [List.foldl_cons, h]
        unfold tsMin; split
        · exact Or.inr (List.mem_cons_self _ _)
        · exact Or.inl rfl
      · exact Or.inr (List.mem_cons_of_mem _ h)

lemma foldl_tsMax_mem (l : List Timestamp) (a : Timestamp) :
    l.foldl tsMax a = a ∨ l.foldl tsMax a ∈ l := by
  induction l generalizing a with
  | nil => simp
  | cons t ts ih =>
      rcases ih (tsMax a t) with h | h
      · rw [List.foldl_cons, h]
        unfold tsMax; split
        · exact Or.inr (List.mem_cons_self _ _)
        · exact Or.inl rfl
      · exact Or.inr (List.mem_cons_of_mem _ h)

lemma datasetMinTs_mem {df : List Row} {mn : Timestamp}
    (h : datasetMinTs df = some mn) : ∃ r ∈ df, r.ts = mn := by
  match df with
  | [] => simp [datasetMinTs] at h
  | r :: rs =>
      simp only [datasetMinTs, Option.some.injEq] at h
      rcases foldl_tsMin_mem (rs.map Row.ts) r.ts with h' | h'
      · exact ⟨r, List.mem_cons_self _ _, by rw [← h, h']⟩
      · rcases List.mem_map.1 h' with ⟨r', hr', hr'ts⟩
        exact ⟨r', List.mem_cons_of_mem _ hr', by rw [hr'ts, h]⟩

lemma datasetMaxTs_mem {df : List Row} {mx : Timestamp}
    (h : datasetMaxTs df = some mx) : ∃ r ∈ df, r.ts = mx := by
  match df with
  | [] => simp [datasetMaxTs] at h
  | r :: rs =>
      simp only [datasetMaxTs, Option.some.injEq] at h
      rcases foldl_tsMax_mem (rs.map Row.ts) r.ts with h' | h'
      · exact ⟨r, List.mem_cons_self _ _, by rw [← h, h']⟩
      · rcases List.mem_map.1 h' with ⟨r', hr', hr'ts⟩
        exact ⟨r', List.mem_cons_of_mem _ hr', by rw [hr'ts, h]⟩

lemma datasetMinTs_key_le {df : List Row} {mn : Timestamp}
    (h : datasetMinTs df = some mn) : ∀ r ∈ df, mn.key ≤ r.ts.key := by
  match df with
  | [] => simp [datasetMinTs] at h
  | r :: rs =>
      simp only [datasetMinTs, Option.some.injEq] at h
      intro r' hr'
      rcases List.mem_cons.1 hr' with rfl | hr'
      · exact h ▸ foldl_tsMin_key_le_acc _ _
      · exact h ▸ foldl_tsMin_key_le_mem _ _ _ (List.mem_map_of_mem Row.ts hr')

lemma datasetMaxTs_key_ge {df : List Row} {mx : Timestamp}
    (h : datasetMaxTs df = some mx) : ∀ r ∈ df, r.ts.key ≤ mx.key := by
  match df with
  | [] => simp [datasetMaxTs] at h
  | r :: rs =>
      simp only [datasetMaxTs, Option.some.injEq] at h
      intro r' hr'
      rcases List.mem_cons.1 hr' with rfl | hr'
      · exact h ▸ foldl_tsMax_key_ge_acc _ _
      · exact h ▸ foldl_tsMax_key_ge_mem _ _ _ (List.mem_map_of_mem Row.ts hr')

/-- For in-range hours, the chronological order of timestamp keys refines the
order of calendar-date ordinals. -/
lemma key_le_ordinal_le {a b : Timestamp} (h : a.key ≤ b.key)
    (hb : b.hour < 24) : a.date.toOrdinal ≤ b.date.toOrdinal := by
  unfold Timestamp.key at h
  omega

/-- C9: filtering a dataset by the window running from its own minimum
calendar date to its own maximum calendar date returns the dataset unchanged,
row for row (hypotheses: the dataset is non-empty — so its min and max
exist — and its timestamps carry in-range hours). -/
theorem filter_roundTrip (df : List Row) (mn mx : Timestamp)
    (hh : ∀ r ∈ df, r.ts.hour < 24)
    (hmn : datasetMinTs df = some mn) (hmx : datasetMaxTs df = some mx) :
    filter_data_by_date_range df mn.date mx.date = df := by
  rw [filter_data_by_date_range, List.filter_eq_self]
  intro r hr
  rcases datasetMaxTs_mem hmx with ⟨rmx, hrmx, hrmxts⟩
  refine decide_eq_true ⟨?_, ?_⟩
  · exact key_le_ordinal_le (datasetMinTs_key_le hmn r hr) (hh r hr)
  · exact key_le_ordinal_le (datasetMaxTs_key_ge hmx r hr)
      (hrmxts ▸ hh rmx hrmx)

/-- Witness for C9 at a concrete three-row dataset. -/
theorem filter_roundTrip_witness :
    filter_data_by_date_range
        [⟨⟨⟨2025, 1, 31⟩, 23⟩, 1, 2, 3, (2 : ℚ)/100⟩,
         ⟨⟨⟨2025, 2, 1⟩, 0⟩, 4, 5, 6, (20 : ℚ)/100⟩,
         ⟨⟨⟨2025, 3, 1⟩, 7⟩, 7, 8, 9, (56 : ℚ)/100⟩]
        ⟨2025, 1, 31⟩ ⟨2025, 3, 1⟩ =
      [⟨⟨⟨2025, 1, 31⟩, 23⟩, 1, 2, 3, (2 : ℚ)/100⟩,
       ⟨⟨⟨2025, 2, 1⟩, 0⟩, 4, 5, 6, (20 : ℚ)/100⟩,
       ⟨⟨⟨2025, 3, 1⟩, 7⟩, 7, 8, 9, (56 : ℚ)/100⟩] :=
  filter_roundTrip _ ⟨⟨2025, 1, 31⟩, 23⟩ ⟨⟨2025, 3, 1⟩, 7⟩
    (by decide) (by decide) (by decide)

/-- Embedding of `pd.Timestamp.replace(day=1)`: the first day of the date's month. -/
def firstOfMonth (d : Date) : Date := ⟨d.year, d.month, 1⟩

/-- Subtracting `pd.Timedelta(days=1)`: the calendar day before `d`. -/
def predDay (d : Date) : Date :=
  if 1 < d.day then ⟨d.year, d.month, d.day - 1⟩
  else if 1 < d.month then ⟨d.year, d.month - 1, daysInMonth d.year (d.month - 1)⟩
  else ⟨d.year - 1, 12, 31⟩

/-- Python's `max` on two dates (ties keep the first argument); dates are
compared by calendar order, embedded as ordinal order. -/
def dateMax (a b : Date) : Date := if a.toOrdinal < b.toOrdinal then b else a

/-- Python's `min` on two dates (ties keep the first argument). -/
def dateMin (a b : Date) : Date := if b.toOrdinal < a.toOrdinal then b else a

/-- Embedding of `calculate_default_date_range` (src/data_loader.py): the "last whole
month" default window.  From the index min/max dates it takes the month
preceding the max date's month (first-of-max-month minus one day is that
month's last day, whose own first-of-month is its first day), clamps the pair
into `[min_date, max_date]`, and falls back to the full `(min_date, max_date)`
range when the clamped start exceeds the clamped end.  `none` on an empty
dataframe (where the source would call `.date()` on `NaT`). -/
def calculate_default_date_range (df : List Row) : Option (Date × Date) :=
  match datasetMinTs df, datasetMaxTs df with
  | some mnt, some mxt =>
      let min_date := mnt.date
      let max_date := mxt.date
      let default_end_date_dt := predDay (firstOfMonth max_date)
      let default_start_date_dt := firstOfMonth default_end_date_dt
      let default_start_date := dateMax min_date default_start_date_dt
      let default_end_date := dateMin max_date default_end_date_dt
      if default_end_date.toOrdinal < default_start_date.toOrdinal then
        some (min_date, max_date)
      else
        some (default_start_date, default_end_date)
  | _, _ => none

/-- C3 counterexample: a dataset spanning 2025-02-15 .. 2025-03-10 has no
complete calendar month of data before its max date, yet the calculator
returns the clamped pair (2025-02-15, 2025-02-28) — neither the complete
preceding month (2025-02-01, 2025-02-28) nor the full-range fallback
(2025-02-15, 2025-03-10), refuting the claim as stated. -/
theorem defaultRange_clamps_counterexample :
    calculate_default_date_range
        [⟨⟨⟨2025, 2, 15⟩, 0⟩, 1, 2, 3, (2 : ℚ)/100⟩,
         ⟨⟨⟨2025, 3, 10⟩, 0⟩, 1, 2, 3, (2 : ℚ)/100⟩] =
      some (⟨2025, 2, 15⟩, ⟨2025, 2, 28⟩) ∧
    some ((⟨2025, 2, 15⟩ : Date), (⟨2025, 2, 28⟩ : Date)) ≠
      some ((⟨2025, 2, 1⟩ : Date), (⟨2025, 2, 28⟩ : Date)) ∧
    some ((⟨2025, 2, 15⟩ : Date), (⟨2025, 2, 28⟩ : Date)) ≠
      some ((⟨2025, 2, 15⟩ : Date), (⟨2025, 3, 10⟩ : Date)) := by
  refine ⟨by decide, by decide, by decide⟩

lemma dateMax_toOrdinal (a b : Date) :
    (dateMax a b).toOrdinal = max a.toOrdinal b.toOrdinal := by
  unfold dateMax; split <;> omega

lemma dateMin_toOrdinal (a b : Date) :
    (dateMin a b).toOrdinal = min a.toOrdinal b.toOrdinal := by
  unfold dateMin; split <;> omega

/-- C3 (amended): for every non-empty dataset the default-window calculator
returns, as a set of calendar days, the intersection of the dataset's own
day range with the complete calendar month preceding the max date's month —
i.e. the preceding month *clamped* into `[min_date, max_date]` — and falls
back to the full `(min_date, max_date)` range exactly when that intersection
is empty. -/
theorem defaultRange_prevMonth_clamped (df : List Row) (mnt mxt : Timestamp)
    (hmn : datasetMinTs df = some mnt) (hmx : datasetMaxTs df = some mxt) :
    ∃ s e, calculate_default_date_range df = some (s, e) ∧
      ((Finset.Icc mnt.date.toOrdinal mxt.date.toOrdinal ∩
          Finset.Icc (firstOfMonth (predDay (firstOfMonth mxt.date))).toOrdinal
            (predDay (firstOfMonth mxt.date)).toOrdinal).Nonempty →
        Finset.Icc s.toOrdinal e.toOrdinal =
          Finset.Icc mnt.date.toOrdinal mxt.date.toOrdinal ∩
            Finset.Icc (firstOfMonth (predDay (firstOfMonth mxt.date))).toOrdinal
              (predDay (firstOfMonth mxt.date)).toOrdinal) ∧
      (¬ (Finset.Icc mnt.date.toOrdinal mxt.date.toOrdinal ∩
          Finset.Icc (firstOfMonth (predDay (firstOfMonth mxt.date))).toOrdinal
            (predDay (firstOfMonth mxt.date)).toOrdinal).Nonempty →
        s = mnt.date ∧ e = mxt.date) := by
  have hIcc : Finset.Icc mnt.date.toOrdinal mxt.date.toOrdinal ∩
      Finset.Icc (firstOfMonth (predDay (firstOfMonth mxt.date))).toOrdinal
        (predDay (firstOfMonth mxt.date)).toOrdinal =
      Finset.Icc
        (max mnt.date.toOrdinal
          (firstOfMonth (predDay (firstOfMonth mxt.date))).toOrdinal)
        (min mxt.date.toOrdinal (predDay (firstOfMonth mxt.date)).toOrdinal) := by
    ext n
    simp only [Finset.mem_inter, Finset.mem_Icc]
    omega
  unfold calculate_default_date_range
  rw [hmn, hmx]
  simp only
  split
  · rename_i hlt
    refine ⟨mnt.date, mxt.date, rfl, ?_, fun _ => ⟨rfl, rfl⟩⟩
    intro hne
    rw [hIcc] at hne
    have := Finset.nonempty_Icc.1 hne
    rw [dateMin_toOrdinal, dateMax_toOrdinal] at hlt
    omega
  · rename_i hge
    refine ⟨_, _, rfl, fun _ => ?_, fun hne => ?_⟩
    · rw [hIcc, dateMax_toOrdinal, dateMin_toOrdinal]
    · exfalso
      apply hne
      rw [hIcc]
      refine Finset.nonempty_Icc.2 ?_
      rw [dateMin_toOrdinal, dateMax_toOrdinal] at hge
      omega

/-- Witness for C3 as amended: the spec's own example, a dataset spanning
2015-01-01 .. 2025-03-15, for which the result is (2025-02-01, 2025-02-28). -/
theorem defaultRange_prevMonth_clamped_witness :
    (∃ s e, calculate_default_date_range
        [⟨⟨⟨2015, 1, 1⟩, 0⟩, 1, 2, 3, (2 : ℚ)/100⟩,
         ⟨⟨⟨2025, 3, 15⟩, 0⟩, 1, 2, 3, (2 : ℚ)/100⟩] = some (s, e) ∧
      ((Finset.Icc (Date.toOrdinal ⟨2015, 1, 1⟩) (Date.toOrdinal ⟨2025, 3, 15⟩) ∩
          Finset.Icc
            (firstOfMonth (predDay (firstOfMonth ⟨2025, 3, 15⟩))).toOrdinal
            (predDay (firstOfMonth ⟨2025, 3, 15⟩)).toOrdinal).Nonempty →
        Finset.Icc s.toOrdinal e.toOrdinal =
          Finset.Icc (Date.toOrdinal ⟨2015, 1, 1⟩) (Date.toOrdinal ⟨2025, 3, 15⟩) ∩
            Finset.Icc
              (firstOfMonth (predDay (firstOfMonth ⟨2025, 3, 15⟩))).toOrdinal
              (predDay (firstOfMonth ⟨2025, 3, 15⟩)).toOrdinal) ∧
      (¬ (Finset.Icc (Date.toOrdinal ⟨2015, 1, 1⟩) (Date.toOrdinal ⟨2025, 3, 15⟩) ∩
          Finset.Icc
            (firstOfMonth (predDay (firstOfMonth ⟨2025, 3, 15⟩))).toOrdinal
            (predDay (firstOfMonth ⟨2025, 3, 15⟩)).toOrdinal).Nonempty →
        s = ⟨2015, 1, 1⟩ ∧ e = ⟨2025, 3, 15⟩)) ∧
    calculate_default_date_range
        [⟨⟨⟨2015, 1, 1⟩, 0⟩, 1, 2, 3, (2 : ℚ)/100⟩,
         ⟨⟨⟨2025, 3, 15⟩, 0⟩, 1, 2, 3, (2 : ℚ)/100⟩] =
      some (⟨2025, 2, 1⟩, ⟨2025, 2, 28⟩) :=
  ⟨defaultRange_prevMonth_clamped _ ⟨⟨2015, 1, 1⟩, 0⟩ ⟨⟨2025, 3, 15⟩, 0⟩
      (by decide) (by decide),
   by decide⟩

/-- C10: for every non-empty dataset (with in-range hours) the default window
`(s, e)` is clamped inside the data's own day range:
`min_date ≤ s ≤ e ≤ max_date` in calendar (ordinal) order. -/
theorem defaultRange_within_data (df : List Row) (mnt mxt : Timestamp)
    (s e : Date) (hh : ∀ r ∈ df, r.ts.hour < 24)
    (hmn : datasetMinTs df = some mnt) (hmx : datasetMaxTs df = some mxt)
    (hres : calculate_default_date_range df = some (s, e)) :
    mnt.date.toOrdinal ≤ s.toOrdinal ∧ s.toOrdinal ≤ e.toOrdinal ∧
      e.toOrdinal ≤ mxt.date.toOrdinal := by
  have hmnmx : mnt.date.toOrdinal ≤ mxt.date.toOrdinal := by
    rcases datasetMaxTs_mem hmx with ⟨r, hr, hrts⟩
    exact key_le_ordinal_le (hrts ▸ datasetMinTs_key_le hmn r hr)
      (hrts ▸ hh r hr)
  unfold calculate_default_date_range at hres
  rw [hmn, hmx] at hres
  simp only at hres
  split at hres
  · rcases Option.some.injEq .. ▸ hres with h
    cases h
    exact ⟨le_refl _, hmnmx, le_refl _⟩
  · rename_i hge
    rcases Option.some.injEq .. ▸ hres with h
    cases h
    rw [dateMin_toOrdinal, dateMax_toOrdinal] at hge ⊢
    refine ⟨le_max_left _ _, by omega, min_le_left _ _⟩

/-- Witness for C10 at a concrete dataset. -/
theorem defaultRange_within_data_witness :
    Date.toOrdinal ⟨2025, 2, 15⟩ ≤ Date.toOrdinal ⟨2025, 2, 15⟩ ∧
    Date.toOrdinal ⟨2025, 2, 15⟩ ≤ Date.toOrdinal ⟨2025, 2, 28⟩ ∧
    Date.toOrdinal ⟨2025, 2, 28⟩ ≤ Date.toOrdinal ⟨2025, 3, 10⟩ :=
  defaultRange_within_data
    [⟨⟨⟨2025, 2, 15⟩, 0⟩, 1, 2, 3, (2 : ℚ)/100⟩,
     ⟨⟨⟨2025, 3, 10⟩, 0⟩, 1, 2, 3, (2 : ℚ)/100⟩]
    ⟨⟨2025, 2, 15⟩, 0⟩ ⟨⟨2025, 3, 10⟩, 0⟩ ⟨2025, 2, 15⟩ ⟨2025, 2, 28⟩
    (by decide) (by decide) (by decide) (by decide)

/-- Embedding of `Series.mean()`: arithmetic mean of a column. -/
def mean (xs : List ℚ) : ℚ := xs.sum / xs.length

/-- The dictionary returned by `calculate_overall_metrics`
(src/metrics_calculator.py).  `price_volatility_sq` carries the *square* of
the reported `Series.std()` value (the sample variance): the pandas result is
its non-negative square root, and is NaN — embedded as `none` — when the
slice has fewer than 2 rows. -/
structure MetricsSummary where
  total_consumption : ℚ
  total_bill : ℚ
  avg_price : ℚ
  avg_temp : ℚ
  max_consumption : ℚ
  min_consumption : ℚ
  price_volatility_sq : Option ℚ
  temp_range : ℚ
  daily_avg_consumption : ℚ
  efficiency_score : ℚ
  num_days_in_filter : Int
deriving DecidableEq, Repr

/-- Embedding of `calculate_overall_metrics` (src/metrics_calculator.py): returns `none`
(the source returns the empty dict `{}`) on an empty slice, otherwise the
summary record.  Column reductions follow pandas: `sum`, `mean`, `max`,
`min`, and `std` with the default `ddof=1` (so NaN below 2 rows, embedded as
`none` in `price_volatility_sq`, which carries the variance — see
`MetricsSummary`).  `(end_date - start_date).days + 1` is the ordinal
difference plus one. -/
def calculate_overall_metrics : List Row → Date → Date → Option MetricsSummary
  | [], _, _ => none
  | r :: rs, start_date, end_date =>
      let df := r :: rs
      let prices := df.map Row.price
      let total_consumption := (df.map Row.kwh).sum
      let avg_price := mean prices
      let num_days_in_filter : Int :=
        (end_date.toOrdinal : Int) - (start_date.toOrdinal : Int) + 1
      let daily_avg_consumption := total_consumption / (num_days_in_filter : ℚ)
      some
        { total_consumption := total_consumption
          total_bill := (df.map Row.bill).sum
          avg_price := avg_price
          avg_temp := mean (df.map Row.temp)
          max_consumption := (rs.map Row.kwh).foldl max r.kwh
          min_consumption := (rs.map Row.kwh).foldl min r.kwh
          price_volatility_sq :=
            if df.length < 2 then none
            else some ((prices.map
                (fun x => (x - avg_price) * (x - avg_price))).sum /
              ((df.length : ℚ) - 1))
          temp_range :=
            (rs.map Row.temp).foldl max r.temp -
              (rs.map Row.temp).foldl min r.temp
          daily_avg_consumption := daily_avg_consumption
          efficiency_score :=
            if 0 < avg_price then daily_avg_consumption / avg_price else 0
          num_days_in_filter := num_days_in_filter }

/-- C5: on every non-empty slice the efficiency score divides
`daily_avg_consumption` by `avg_price` only when `avg_price > 0`, and is
exactly `0` whenever `avg_price ≤ 0` (zero and negative average prices land
in the same no-division branch); in particular a one-row slice with price `0`
and one with price `-5` both score exactly `0`. -/
theorem efficiencyScore_branch (r : Row) (rs : List Row) (s e : Date) :
    (∃ m, calculate_overall_metrics (r :: rs) s e = some m ∧
      (0 < m.avg_price →
        m.efficiency_score = m.daily_avg_consumption / m.avg_price) ∧
      (m.avg_price ≤ 0 → m.efficiency_score = 0)) ∧
    (∃ m5, calculate_overall_metrics
        [⟨⟨⟨2025, 1, 1⟩, 0⟩, 1, -5, 0, -1/20⟩] ⟨2025, 1, 1⟩ ⟨2025, 1, 1⟩ =
        some m5 ∧ m5.avg_price = -5 ∧ m5.efficiency_score = 0) ∧
    (∃ m0, calculate_overall_metrics
        [⟨⟨⟨2025, 1, 1⟩, 0⟩, 1, 0, 0, 0⟩] ⟨2025, 1, 1⟩ ⟨2025, 1, 1⟩ =
        some m0 ∧ m0.avg_price = 0 ∧ m0.efficiency_score = 0) := by
  refine ⟨⟨_, rfl, ?_, ?_⟩, ⟨_, rfl, ?_, ?_⟩, ⟨_, rfl, ?_, ?_⟩⟩
  · intro hpos
    simp only at hpos ⊢
    rw [if_pos hpos]
  · intro hnonpos
    simp only at hnonpos ⊢
    rw [if_neg (not_lt.2 hnonpos)]
  · simp [mean]
  · simp only [mean]
    norm_num
  · simp [mean]
  · simp only [mean]
    norm_num

/-- C6: on every non-empty slice the metrics are produced without error, and
`price_volatility` is the sample standard deviation of the price column —
its square (`price_volatility_sq`) is `Σ (x - mean)² / (N - 1)` — with the
NaN sentinel (`none`) reported exactly when the slice has fewer than 2 rows;
in particular a one-row slice yields the sentinel and a two-row slice with
prices `[1, 3]` yields variance `2` (the N−1 denominator; a population
standard deviation would give `1`). -/
theorem priceVolatility_sampleStd (r : Row) (rs : List Row) (s e : Date) :
    (∃ m, calculate_overall_metrics (r :: rs) s e = some m ∧
      (m.price_volatility_sq = none ↔ (r :: rs).length < 2) ∧
      (2 ≤ (r :: rs).length →
        m.price_volatility_sq =
          some ((((r :: rs).map Row.price).map
            (fun x => (x - mean ((r :: rs).map Row.price)) *
              (x - mean ((r :: rs).map Row.price)))).sum /
            (((r :: rs).length : ℚ) - 1)))) ∧
    (∃ m1, calculate_overall_metrics
        [⟨⟨⟨2025, 1, 1⟩, 0⟩, 1, 1, 0, 1/100⟩] ⟨2025, 1, 1⟩ ⟨2025, 1, 1⟩ =
        some m1 ∧ m1.price_volatility_sq = none) ∧
    (∃ m2, calculate_overall_metrics
        [⟨⟨⟨2025, 1, 1⟩, 0⟩, 1, 1, 0, 1/100⟩,
         ⟨⟨⟨2025, 1, 1⟩, 1⟩, 1, 3, 0, 3/100⟩] ⟨2025, 1, 1⟩ ⟨2025, 1, 1⟩ =
        some m2 ∧ m2.price_volatility_sq = some 2) := by
  refine ⟨⟨_, rfl, ?_, ?_⟩, ⟨_, rfl, ?_⟩, ⟨_, rfl, ?_⟩⟩
  · simp only
    split
    · rename_i h
      exact ⟨fun _ => h, fun _ => rfl⟩
    · rename_i h
      exact ⟨fun hc => (Option.some_ne_none _ hc).elim, fun hlt => absurd hlt h⟩
  · intro hlen
    simp only
    rw [if_neg (by omega)]
  · rfl
  · simp only [mean]
    norm_num

/-- The inclusive calendar-day count of a window, defined independently of
the code under test: the number of day ordinals lying in `[start, end]`. -/
def windowDayCount (s e : Date) : Nat :=
  (Finset.Icc s.toOrdinal e.toOrdinal).card

/-- C7: for every window with `start ≤ end` and any two non-empty slices,
`num_days_in_filter` equals the inclusive calendar-day count of the window,
is identical across slices (independent of how many rows have data in the
span), and `daily_avg_consumption` is `total_consumption` divided by that
nominal day count. -/
theorem numDays_nominalSpan (r r' : Row) (rs rs' : List Row) (s e : Date)
    (hse : s.toOrdinal ≤ e.toOrdinal) :
    ∃ m m', calculate_overall_metrics (r :: rs) s e = some m ∧
      calculate_overall_metrics (r' :: rs') s e = some m' ∧
      m.num_days_in_filter = (windowDayCount s e : Int) ∧
      m'.num_days_in_filter = m.num_days_in_filter ∧
      m.daily_avg_consumption =
        m.total_consumption / ((m.num_days_in_filter : Int) : ℚ) := by
  refine ⟨_, _, rfl, rfl, ?_, rfl, rfl⟩
  rw [windowDayCount, Nat.card_Icc]
  simp only
  omega

/-- Witness for C7: a ten-day window over two one-row slices with data on a
single day each reports the nominal 10-day span. -/
theorem numDays_nominalSpan_witness :
    ∃ m m', calculate_overall_metrics
        [⟨⟨⟨2025, 1, 1⟩, 0⟩, 5, 1, 0, 5/100⟩] ⟨2025, 1, 1⟩ ⟨2025, 1, 10⟩ =
        some m ∧
      calculate_overall_metrics
        [⟨⟨⟨2025, 1, 3⟩, 0⟩, 2, 1, 0, 2/100⟩,
         ⟨⟨⟨2025, 1, 4⟩, 0⟩, 2, 1, 0, 2/100⟩] ⟨2025, 1, 1⟩ ⟨2025, 1, 10⟩ =
        some m' ∧
      m.num_days_in_filter = (windowDayCount ⟨2025, 1, 1⟩ ⟨2025, 1, 10⟩ : Int) ∧
      m'.num_days_in_filter = m.num_days_in_filter ∧
      m.daily_avg_consumption =
        m.total_consumption / ((m.num_days_in_filter : Int) : ℚ) :=
  numDays_nominalSpan _ _ _ _ _ _ (by decide)

/-- The `group_by` tag of `prepare_chart_data`: `'Daily' | 'Weekly' |
'Monthly'`, mapped in the source to the resample rules `'D' | 'W' | 'MS'`. -/
inductive Granularity
  | Daily
  | Weekly
  | Monthly
deriving DecidableEq, Repr

/-- The resample bin label a timestamp falls into, as a day ordinal.
Pandas conventions for the three rules used by the source:
`'D'` labels each bin by its calendar day (left edge); `'MS'` by the first
day of the month (left edge); `'W'` (= `'W-SUN'`) groups Monday–Sunday and
labels by the *right* edge, the Sunday on or after the timestamp's date
(day ordinal 1 is a Monday, so Sundays are the ordinals divisible by 7). -/
def bucketKey (g : Granularity) (t : Timestamp) : Nat :=
  match g with
  | .Daily => t.date.toOrdinal
  | .Weekly => t.date.toOrdinal + (7 - t.date.toOrdinal % 7) % 7
  | .Monthly => (firstOfMonth t.date).toOrdinal

/-- One row of the dataframe produced by
`df_filtered.resample(rule).agg(...)` in `prepare_chart_data`
(src/chart_utils.py): the bin label (the `Date` index, stored as a day
ordinal) and the four reduced columns. -/
structure AggregatedBucket where
  bucket : Nat
  consumption_kwh : ℚ
  bill_eur : ℚ
  price_cents_per_kwh : ℚ
  temperature_c : ℚ
deriving DecidableEq, Repr

/-- The reduction of one bin: `sum` for consumption and bill, `mean` for
price and temperature, exactly the `.agg` dictionary of the source. -/
def mkBucket (df : List Row) (g : Granularity) (k : Nat) : AggregatedBucket :=
  let rows := df.filter fun r => bucketKey g r.ts == k
  { bucket := k
    consumption_kwh := (rows.map Row.kwh).sum
    bill_eur := (rows.map Row.bill).sum
    price_cents_per_kwh := mean (rows.map Row.price)
    temperature_c := mean (rows.map Row.temp) }

/-- The grouping-and-reduction core of `prepare_chart_data`
(src/chart_utils.py): one `AggregatedBucket` per distinct bin label occurring
in the data.  (Pandas `resample` additionally emits zero/NaN bins for
interior intervals containing no rows — a policy the spec leaves open — and
the source then melts the frame to long format for the charting layer;
neither affects the per-bucket grouping and reductions modelled here.) -/
def prepare_chart_data (df : List Row) (g : Granularity) :
    List AggregatedBucket :=
  ((df.map fun r => bucketKey g r.ts).dedup).map (mkBucket df g)

/-- C2 counterexample: a single row on Tuesday 2025-03-04 resampled Weekly
lands in the calendar week Monday 2025-03-03 .. Sunday 2025-03-09, but its
bucket is labelled by the ordinal of Sunday 2025-03-09 — the *right* edge of
the interval, not the left edge 2025-03-03 the claim requires. -/
theorem aggregator_weeklyLabel_counterexample :
    (prepare_chart_data [⟨⟨⟨2025, 3, 4⟩, 0⟩, 1, 2, 3, 2/100⟩]
        Granularity.Weekly).map AggregatedBucket.bucket =
      [Date.toOrdinal ⟨2025, 3, 9⟩] ∧
    Date.toOrdinal ⟨2025, 3, 9⟩ ≠ Date.toOrdinal ⟨2025, 3, 3⟩ := by
  constructor
  · rfl
  · decide

/-- C2 (amended): for every filtered dataset and granularity, the Aggregator
produces one bucket per distinct bin occurring in the data; every bucket sums
`consumption_kwh` and `bill_eur` and averages `price_cents_per_kwh` and
`temperature_c` over exactly the rows falling in its bin; every row lands in
some bucket; bins are aligned to calendar days (labelled by the day, the left
edge) for Daily, to calendar months (labelled by the month's first day, the
left edge) for Monthly, and to Monday–Sunday calendar weeks *labelled by the
closing Sunday — the right edge, not `bucket_start`* for Weekly; and a bucket
whose rows have consumption `[1, 2, 3]` sums to `6`. -/
theorem aggregator_groupsAndReduces (df : List Row) (g : Granularity) :
    (∀ b ∈ prepare_chart_data df g,
      (∃ r ∈ df, bucketKey g r.ts = b.bucket) ∧
      b.consumption_kwh =
        ((df.filter fun r => bucketKey g r.ts == b.bucket).map Row.kwh).sum ∧
      b.bill_eur =
        ((df.filter fun r => bucketKey g r.ts == b.bucket).map Row.bill).sum ∧
      b.price_cents_per_kwh =
        mean ((df.filter fun r => bucketKey g r.ts == b.bucket).map Row.price) ∧
      b.temperature_c =
        mean ((df.filter fun r => bucketKey g r.ts == b.bucket).map Row.temp)) ∧
    (∀ r ∈ df, ∃ b ∈ prepare_chart_data df g, bucketKey g r.ts = b.bucket) ∧
    (∀ t : Timestamp,
      bucketKey Granularity.Daily t = t.date.toOrdinal ∧
      bucketKey Granularity.Monthly t = (firstOfMonth t.date).toOrdinal ∧
      bucketKey Granularity.Weekly t % 7 = 0 ∧
      t.date.toOrdinal ≤ bucketKey Granularity.Weekly t ∧
      bucketKey Granularity.Weekly t < t.date.toOrdinal + 7) ∧
    (∀ b ∈ prepare_chart_data
        [⟨⟨⟨2025, 1, 1⟩, 0⟩, 1, 2, 3, 2/100⟩,
         ⟨⟨⟨2025, 1, 1⟩, 1⟩, 2, 2, 3, 4/100⟩,
         ⟨⟨⟨2025, 1, 1⟩, 2⟩, 3, 2, 3, 6/100⟩] Granularity.Daily,
      b.consumption_kwh = 6) := by
  refine ⟨?_, ?_, ?_, ?_⟩
  · intro b hb
    rcases List.mem_map.1 hb with ⟨k, hk, rfl⟩
    have hk' := List.mem_dedup.1 hk
    rcases List.mem_map.1 hk' with ⟨r, hr, hrk⟩
    exact ⟨⟨r, hr, hrk⟩, rfl, rfl, rfl, rfl⟩
  · intro r hr
    refine ⟨mkBucket df g (bucketKey g r.ts), ?_, rfl⟩
    exact List.mem_map_of_mem _
      (List.mem_dedup.2 (List.mem_map_of_mem _ hr))
  · intro t
    refine ⟨rfl, rfl, ?_, ?_, ?_⟩ <;> (simp only [bucketKey]; omega)
  · intro b hb
    have h3 : (prepare_chart_data
        [⟨⟨⟨2025, 1, 1⟩, 0⟩, 1, 2, 3, 2/100⟩,
         ⟨⟨⟨2025, 1, 1⟩, 1⟩, 2, 2, 3, 4/100⟩,
         ⟨⟨⟨2025, 1, 1⟩, 2⟩, 3, 2, 3, 6/100⟩] Granularity.Daily) =
        [mkBucket
          [⟨⟨⟨2025, 1, 1⟩, 0⟩, 1, 2, 3, 2/100⟩,
           ⟨⟨⟨2025, 1, 1⟩, 1⟩, 2, 2, 3, 4/100⟩,
           ⟨⟨⟨2025, 1, 1⟩, 2⟩, 3, 2, 3, 6/100⟩] Granularity.Daily
          (Date.toOrdinal ⟨2025, 1, 1⟩)] := by
      rw [prepare_chart_data]
      norm_num [List.dedup_cons_of_mem, List.dedup_cons_of_not_mem, bucketKey]
    rw [h3] at hb
    rcases List.mem_singleton.1 hb with rfl
    show ((List.filter _ _).map Row.kwh).sum = 6
    norm_num [List.filter, bucketKey]

/-- One parsed row of the consumption CSV: the `time` index and the `kWh`
column, which may be missing (NaN) in the file. -/
structure ConsRow where
  time : Timestamp
  kWh : Option ℚ
deriving DecidableEq, Repr

/-- One row of the price CSV after timestamp parsing: the `timestamp` index
and the `Price` and `Temperature` columns, each possibly missing (NaN). -/
structure PriceRow where
  timestamp : Timestamp
  price : Option ℚ
  temperature : Option ℚ
deriving DecidableEq, Repr

/-- The join-and-clean core of `load_data` (src/data_loader.py):
`df_cons.join(df_price)` left-joins the price table onto the consumption
index, `dropna()` then removes every row with any missing field — together
an inner join keeping exactly the timestamps present in both sources with
all fields populated — and `df['Bill'] = df['kWh'] * (df['Price'] / 100)`
derives the bill.  With unique timestamps per source (the Dataset
invariant), the pandas join matches each consumption row against the single
price row with equal timestamp, modelled by `find?`. -/
def joinRows (cons : List ConsRow) (prices : List PriceRow) : List Row :=
  cons.filterMap fun c =>
    match prices.find? (fun p => p.timestamp == c.time) with
    | some p =>
        match c.kWh, p.price, p.temperature with
        | some k, some pr, some te => some ⟨c.time, k, pr, te, k * (pr / 100)⟩
        | _, _, _ => none
    | none => none

lemma pairwise_timestamp_inj {l : List PriceRow}
    (h : l.Pairwise fun a b => a.timestamp ≠ b.timestamp) :
    ∀ p ∈ l, ∀ q ∈ l, p.timestamp = q.timestamp → p = q := by
  induction l with
  | nil => simp
  | cons x xs ih =>
      rcases List.pairwise_cons.1 h with ⟨hx, hxs⟩
      intro p hp q hq hpq
      rcases List.mem_cons.1 hp with hp1 | hp1
      · rcases List.mem_cons.1 hq with hq1 | hq1
        · rw [hp1, hq1]
        · exact absurd (hp1 ▸ hpq) (hx q hq1)
      · rcases List.mem_cons.1 hq with hq1 | hq1
        · exact absurd (hq1 ▸ hpq).symm (hx p hp1)
        · exact ih hxs p hp1 q hq1 hpq

/-- C4: with unique price timestamps, the Joiner's output contains a row
exactly when its timestamp occurs in both sources with all of kWh, Price and
Temperature present — rows lacking a counterpart or any field are dropped —
and the row then carries those fields plus the derived bill. -/
theorem joiner_innerJoin (cons : List ConsRow) (prices : List PriceRow)
    (hu : prices.Pairwise fun p q => p.timestamp ≠ q.timestamp) :
    ∀ row, row ∈ joinRows cons prices ↔
      ∃ c ∈ cons, ∃ p ∈ prices, c.time = row.ts ∧ p.timestamp = row.ts ∧
        c.kWh = some row.kwh ∧ p.price = some row.price ∧
        p.temperature = some row.temp ∧
        row.bill = row.kwh * (row.price / 100) := by
  intro row
  constructor
  · intro hrow
    rcases List.mem_filterMap.1 hrow with ⟨c, hc, hval⟩
    rcases hfind : prices.find? (fun p => p.timestamp == c.time) with _ | p
    · rw [hfind] at hval
      exact absurd hval (by simp)
    · rw [hfind] at hval
      simp only at hval
      have hp : p ∈ prices := List.mem_of_find?_eq_some hfind
      have hpt : p.timestamp = c.time := by
        simpa using List.find?_some hfind
      rcases hk : c.kWh with _ | k
      · simp [hk] at hval
      rcases hpr : p.price with _ | pr
      · simp [hk, hpr] at hval
      rcases hte : p.temperature with _ | te
      · simp [hk, hpr, hte] at hval
      rw [hk, hpr, hte] at hval
      simp only [Option.some.injEq] at hval
      subst hval
      exact ⟨c, hc, p, hp, rfl, hpt, hk, hpr, hte, rfl⟩
  · rintro ⟨c, hc, p, hp, hct, hpt, hk, hpr, hte, hbill⟩
    refine List.mem_filterMap.2 ⟨c, hc, ?_⟩
    have hfind : prices.find? (fun q => q.timestamp == c.time) = some p := by
      rcases hf : prices.find? (fun q => q.timestamp == c.time) with _ | q
      · rw [List.find?_eq_none] at hf
        exact absurd (by simp [hpt, hct]) (hf p hp)
      · have hq : q ∈ prices := List.mem_of_find?_eq_some hf
        have hqt : q.timestamp = c.time := by simpa using List.find?_some hf
        rw [hf, pairwise_timestamp_inj hu q hq p hp (by rw [hqt, hct, hpt])]
    rw [hfind]
    simp only
    rw [hk, hpr, hte]
    cases row with
    | mk ts kwh price temp bill =>
        simp only at hct hbill ⊢
        rw [hct, hbill]

/-- Consumption rows at hours 0, 1, 2 of 2025-01-01 (spec §8 example). -/
def consHours : List ConsRow :=
  [⟨⟨⟨2025, 1, 1⟩, 0⟩, some 1⟩, ⟨⟨⟨2025, 1, 1⟩, 1⟩, some 2⟩,
   ⟨⟨⟨2025, 1, 1⟩, 2⟩, some 3⟩]

/-- Price rows at hours 1, 2, 3 of 2025-01-01 (spec §8 example). -/
def priceHours : List PriceRow :=
  [⟨⟨⟨2025, 1, 1⟩, 1⟩, some 10, some 0⟩, ⟨⟨⟨2025, 1, 1⟩, 2⟩, some 20, some 0⟩,
   ⟨⟨⟨2025, 1, 1⟩, 3⟩, some 30, some 0⟩]

/-- Witness for C4: the spec's example — consumption at hours {0,1,2} joined
with prices at hours {1,2,3} keeps exactly hours {1,2}. -/
theorem joiner_innerJoin_witness :
    (∀ row, row ∈ joinRows consHours priceHours ↔
      ∃ c ∈ consHours, ∃ p ∈ priceHours, c.time = row.ts ∧
        p.timestamp = row.ts ∧ c.kWh = some row.kwh ∧
        p.price = some row.price ∧ p.temperature = some row.temp ∧
        row.bill = row.kwh * (row.price / 100)) ∧
    (joinRows consHours priceHours).map (fun r => r.ts.hour) = [1, 2] :=
  ⟨joiner_innerJoin consHours priceHours (by decide), rfl⟩

/-- The hard-coded consumption-file path of `load_data`. -/
def consumption_path : String := "data/Electricity_consumption_2015-2025.csv"

/-- The hard-coded price-file path of `load_data`. -/
def price_path : String := "data/Electricity_price_2015-2025.csv"

/-- The error `load_data` reports through `st.error`, in the spec's
taxonomy: a missing source file (carrying the path) or an unparseable
timestamp string in the price file (carrying the offending value). -/
inductive LoadError
  | SourceNotFound (path : String)
  | DateParseError (value : String)
deriving DecidableEq, Repr

/-- A raw price-file row before `pd.to_datetime`: the unparsed timestamp
string and the two numeric columns. -/
structure RawPriceRow where
  timestamp : String
  price : Option ℚ
  temperature : Option ℚ
deriving DecidableEq, Repr

/-- Embedding of `pd.to_datetime(df_price['timestamp'], format="%H:%M %m/%d/%Y")`: parses
the whole column, raising `ValueError` that carries the first offending
value.  The parsing of a single string is the external pandas routine,
passed in as the oracle `parseTs`. -/
def parse_price_timestamps (parseTs : String → Option Timestamp) :
    List RawPriceRow → Except String (List PriceRow)
  | [] => Except.ok []
  | r :: rs =>
      match parseTs r.timestamp with
      | none => Except.error r.timestamp
      | some t =>
          match parse_price_timestamps parseTs rs with
          | Except.error v => Except.error v
          | Except.ok ps => Except.ok (⟨t, r.price, r.temperature⟩ :: ps)

/-- Embedding of `load_data` (src/data_loader.py) around the external file system and
datetime parser: `consSrc` and `priceSrc` are the results of reading the two
CSVs (`none` embeds `FileNotFoundError`), `parseTs` the external timestamp
parser.  The result pairs the error reported via `st.error` (if any) with
the returned dataframe: each `except` arm of the source reports its error
and returns the empty frame `pd.DataFrame()`; only the success path joins
the two sources. -/
def load_data (consSrc : Option (List ConsRow))
    (priceSrc : Option (List RawPriceRow))
    (parseTs : String → Option Timestamp) :
    Option LoadError × List Row :=
  match consSrc with
  | none => (some (LoadError.SourceNotFound consumption_path), [])
  | some cons =>
      match priceSrc with
      | none => (some (LoadError.SourceNotFound price_path), [])
      | some raw =>
          match parse_price_timestamps parseTs raw with
          | Except.error v => (some (LoadError.DateParseError v), [])
          | Except.ok prices => (none, joinRows cons prices)

lemma parse_price_timestamps_error {parseTs : String → Option Timestamp}
    {raw : List RawPriceRow} {v : String}
    (h : parse_price_timestamps parseTs raw = Except.error v) :
    ∃ r ∈ raw, r.timestamp = v ∧ parseTs v = none := by
  induction raw with
  | nil => simp [parse_price_timestamps] at h
  | cons r rs ih =>
      rw [parse_price_timestamps] at h
      rcases hp : parseTs r.timestamp with _ | t
      · rw [hp] at h
        simp only [Except.error.injEq] at h
        exact ⟨r, List.mem_cons_self _ _, h, h ▸ hp⟩
      · rw [hp] at h
        rcases hrec : parse_price_timestamps parseTs rs with v' | ps
        · rw [hrec] at h
          simp only [Except.error.injEq] at h
          rcases ih (h ▸ hrec) with ⟨r', hr', hv⟩
          exact ⟨r', List.mem_cons_of_mem _ hr', hv⟩
        · rw [hrec] at h
          exact absurd h (by simp)

/-- C8: if the consumption file is absent, ingestion reports
`SourceNotFound` with its path and yields the empty dataset; same for the
price file; if every file is read but some timestamp string fails to parse,
ingestion reports `DateParseError` carrying exactly the first offending
value (a raw string of the price file on which the parser fails) and yields
the empty dataset; and in every reported-error case the resulting dataset is
empty — no join or downstream computation output survives. -/
theorem ingestion_failSoft (consSrc : Option (List ConsRow))
    (priceSrc : Option (List RawPriceRow))
    (parseTs : String → Option Timestamp) :
    (consSrc = none →
      load_data consSrc priceSrc parseTs =
        (some (LoadError.SourceNotFound consumption_path), [])) ∧
    (∀ cons, consSrc = some cons → priceSrc = none →
      load_data consSrc priceSrc parseTs =
        (some (LoadError.SourceNotFound price_path), [])) ∧
    (∀ cons raw v, consSrc = some cons → priceSrc = some raw →
      parse_price_timestamps parseTs raw = Except.error v →
      (∃ r ∈ raw, r.timestamp = v ∧ parseTs v = none) ∧
      load_data consSrc priceSrc parseTs =
        (some (LoadError.DateParseError v), [])) ∧
    (∀ err, (load_data consSrc priceSrc parseTs).1 = some err →
      (load_data consSrc priceSrc parseTs).2 = []) := by
  refine ⟨?_, ?_, ?_, ?_⟩
  · rintro rfl
    rfl
  · rintro cons rfl rfl
    rfl
  · rintro cons raw v rfl rfl hparse
    refine ⟨parse_price_timestamps_error hparse, ?_⟩
    rw [load_data, hparse]
  · intro err herr
    match consSrc with
    | none => rfl
    | some cons =>
        match priceSrc with
        | none => rfl
        | some raw =>
            rw [load_data] at herr ⊢
            rcases hparse : parse_price_timestamps parseTs raw with v | ps
            · rfl
            · rw [hparse] at herr
              exact absurd herr (by simp)

/-- The malformed timestamp string of the C8 witness. -/
def badStamp : String := "not-a-date"

/-- Witness for C8: a missing consumption file, a missing price file, and a
price file whose only row has an unparseable timestamp each report their
error and yield the empty dataset. -/
theorem ingestion_failSoft_witness :
    load_data none none (fun _ => none) =
      (some (LoadError.SourceNotFound consumption_path), []) ∧
    load_data (some []) none (fun _ => none) =
      (some (LoadError.SourceNotFound price_path), []) ∧
    load_data (some []) (some [⟨badStamp, some 1, some 2⟩]) (fun _ => none) =
      (some (LoadError.DateParseError badStamp), []) :=
  ⟨(ingestion_failSoft none none (fun _ => none)).1 rfl,
   (ingestion_failSoft (some []) none (fun _ => none)).2.1 [] rfl rfl,
   ((ingestion_failSoft (some []) (some [⟨badStamp, some 1, some 2⟩])
      (fun _ => none)).2.2.1 [] [⟨badStamp, some 1, some 2⟩] badStamp
      rfl rfl rfl).2⟩
